import Mathlib

/-!
Shallow embedding of the `linbus` LIN-bus decoder (lin_decoder.cpp, the
`lin_decoder` namespace) and of the frame validator in the Arduino sketch
(arduino.ino), together with proofs settling the frozen claims about them.

Machine integers are modelled as `Nat` with an explicit `% 2^w` wherever the
C code can overflow or truncate; `uint8` struct fields therefore carry a
`% 256` at each store that could exceed 255.
-/

namespace LinDecoder

/-! ## Frame data model

Modelled from the spec: the `LinFrame` class lives in `lin_decoder.h`, which
is not under `src/`. Per the data model section of the spec, a frame is an
ordered sequence of up to `kMaxBytes` (10) payload bytes with a count, and
must contain at least `kMinBytes` (1) bytes to be considered complete;
`reset` empties the frame and `append_byte` appends one byte. -/
structure LinFrame where
  bytes : List Nat
deriving DecidableEq

instance : Inhabited LinFrame := ⟨⟨[]⟩⟩

def LinFrame.kMaxBytes : Nat := 10

def LinFrame.kMinBytes : Nat := 1

def LinFrame.reset : LinFrame := ⟨[]⟩

def LinFrame.append_byte (f : LinFrame) (b : Nat) : LinFrame := ⟨f.bytes ++ [b]⟩

def LinFrame.num_bytes (f : LinFrame) : Nat := f.bytes.length

/-! ## Error flags

Modelled from the spec: the `errors::` bit constants live in `lin_decoder.h`,
which is not under `src/`. The spec's error-handling section lists seven
independent error kinds accumulated as an OR'd bitmask; we assign them the
seven distinct bits in the order of `kErrorBitNames` in lin_decoder.cpp. -/
def errors.FRAME_TOO_SHORT : Nat := 1

def errors.FRAME_TOO_LONG : Nat := 2

def errors.START_BIT : Nat := 4

def errors.STOP_BIT : Nat := 8

def errors.SYNC_BYTE : Nat := 16

def errors.BUFFER_OVERRUN : Nat := 32

def errors.OTHER : Nat := 64

/-! ## Timing configuration (lin_decoder.cpp, class Config) -/

/-- Constant `kDefaultBaud` from lin_decoder.cpp: baud substituted when the
requested rate is out of range. -/
def kDefaultBaud : Nat := 9600

/-- Constant `kMaxSpaceBits` from lin_decoder.cpp: maximum idle bits between
the stop bit of one byte and the start bit of the next. -/
def kMaxSpaceBits : Nat := 6

/-- Modelled from the spec: `hardware_clock::kTicksPerMilli` lives in
`hardware_clock.h`, which is not under `src/`. The spec fixes a 16 MHz
processor clock and a free-running 16-bit hardware counter used with
unsigned-difference arithmetic; the counter runs off the standard 64x
prescale of that clock, i.e. 250 ticks per millisecond (4 us resolution),
and the constant is wide enough that `kTicksPerMilli * 1000` does not
overflow. -/
def kTicksPerMilli : Nat := 250

/-- Record of the fields of `class Config` (lin_decoder.cpp). `baud_` is a
`uint16`; all the derived counts are `uint8` fields. -/
structure Config where
  baud : Nat
  prescaler_x64 : Bool
  counts_per_bit : Nat
  counts_per_half_bit : Nat
  clock_ticks_per_bit : Nat
  clock_ticks_per_half_bit : Nat
  clock_ticks_per_until_start_bit : Nat
deriving DecidableEq

/-- Embedding of `Config::set` (lin_decoder.cpp). The argument is a `uint16`
(callers pass a value below 65536). Each `uint8` field stores its computed
value reduced `% 256`, exactly as the C assignment truncates. -/
def Config.set (baud : Nat) : Config :=
  let b := if baud < 1000 ∨ 20000 < baud then kDefaultBaud else baud
  let presc64 : Bool := b < 8000
  let prescaling : Nat := if presc64 then 64 else 8
  let cpb := ((16000000 / prescaling) / b) % 256
  let cphb := (cpb / 2 + 2) % 256
  let ctpb := ((kTicksPerMilli * 1000) / b) % 256
  let ctphb := (ctpb / 2) % 256
  let ctusb := (ctpb * kMaxSpaceBits) % 256
  ⟨b, presc64, cpb, cphb, ctpb, ctphb, ctusb⟩

/-! ## Frame validator (arduino.ino) -/

/-- Embedding of `setIdChecksumBits` (arduino.ino): replaces the two most
significant bits of a byte with the LIN parity bits of the node ID held in
its six least significant bits. All intermediates are `uint8`, so the
doubling of `shifter` truncates `% 256`. -/
def setIdChecksumBits (id : Nat) : Nat :=
  let p1a : Nat := 255
  let p0a : Nat := 0
  let shifter1 := (id <<< 2) % 256
  let p1b := p1a ^^^ shifter1
  let p0b := p0a ^^^ shifter1
  let shifter2 := (shifter1 + shifter1) % 256
  let p1c := p1b ^^^ shifter2
  let shifter3 := (shifter2 + shifter2) % 256
  let p1d := p1c ^^^ shifter3
  let p0c := p0b ^^^ shifter3
  let shifter4 := (shifter3 + shifter3) % 256
  let p0d := p0c ^^^ shifter4
  let shifter5 := (shifter4 + shifter4) % 256
  let p1e := p1d ^^^ shifter5
  let p0e := p0d ^^^ shifter5
  (p1e &&& 128) ||| (p0e &&& 64) ||| (id &&& 63)

/-- Embedding of the carry-folding loop inside `frameChecksum` (arduino.ino):
while the high byte of the 16-bit sum is nonzero, add it back into the low
byte. -/
def foldCarry (sum : Nat) : Nat :=
  if h : sum < 256 then sum
  else foldCarry (sum % 256 + sum / 256)
termination_by sum
decreasing_by
  omega

/-- Embedding of `frameChecksum` (arduino.ino). `enhanced` is the cached
`kV2Checksum` configuration bit: the enhanced (LIN v2) variant starts the sum
at the identifier byte (index 0), the classic variant at the byte after it;
both exclude the final checksum byte. The running sum is a `uint16`; the
returned `(uint8)(~sum)` is `255 - sum` since the folded sum fits one byte.
The source assumes a nonempty buffer (its only caller guards `n > 1`); on
shorter inputs the C code would index out of bounds, which the list-based
sum here cannot express. -/
def frameChecksum (enhanced : Bool) (bytes : List Nat) : Nat :=
  let startByte := if enhanced then 0 else 1
  let nBytes := bytes.length - (startByte + 1)
  let sum := ((bytes.drop startByte).take nBytes).sum % 65536
  255 - foldCarry sum

/-- Embedding of the identifier-parity test on line 118 of arduino.ino:
`id_byte != setIdChecksumBits(id_byte)` fails validation. -/
def idParityOk (b : Nat) : Bool := b == setIdChecksumBits b

/-- Embedding of `isFrameValid` (arduino.ino): size check, identifier parity
check, and (for multi-byte frames) comparison of the last byte against
`frameChecksum`. -/
def isFrameValid (enhanced : Bool) (bytes : List Nat) : Bool :=
  let n := bytes.length
  if n ≠ 1 ∧ (n < 3 ∨ 10 < n) then false
  else if ¬ idParityOk (bytes.getD 0 0) then false
  else if 1 < n then bytes.getD (n - 1) 0 == frameChecksum enhanced bytes
  else true

/-! ## Decoder state (lin_decoder.cpp)

The ISR-owned globals of the `lin_decoder` namespace are gathered into one
record: the ring buffer (`rx_frame_buffers`, `head_frame_buffer`,
`tail_frame_buffer`), the protocol state variable, the `StateDetectBreak` and
`StateReadData` per-state statics, and `error_flags`. Pin writes, debug
strobes and the hardware timer are I/O with no effect on this state and are
elided. -/

/-- Constant `kMaxFrameBuffers` from lin_decoder.cpp: number of frame slots
in the ring buffer. -/
def kMaxFrameBuffers : Nat := 8

/-- Value `states::DETECT_BREAK` (lin_decoder.cpp). -/
def states.DETECT_BREAK : Nat := 1

/-- Value `states::READ_DATA` (lin_decoder.cpp). -/
def states.READ_DATA : Nat := 2

/-- ISR-owned decoder state: the module-level variables of lin_decoder.cpp
that the claims are about. All `uint8` variables are `Nat` kept below 256 by
explicit `% 256` at each increment that could wrap. -/
structure DecoderState where
  state : Nat
  low_bits_counter : Nat
  rx_from_lin1 : Bool
  bytes_read : Nat
  bits_read_in_byte : Nat
  byte_buffer : Nat
  byte_buffer_bit_mask : Nat
  rx_frame_buffers : List LinFrame
  head_frame_buffer : Nat
  tail_frame_buffer : Nat
  error_flags : Nat
deriving DecidableEq

/-- Initial state after `setup`: buffers reset, indices zero, error flags
clear, `StateDetectBreak::enter` performed. -/
def initialState : DecoderState :=
  { state := states.DETECT_BREAK
    low_bits_counter := 0
    rx_from_lin1 := true
    bytes_read := 0
    bits_read_in_byte := 0
    byte_buffer := 0
    byte_buffer_bit_mask := 0
    rx_frame_buffers := List.replicate kMaxFrameBuffers LinFrame.reset
    head_frame_buffer := 0
    tail_frame_buffer := 0
    error_flags := 0 }

/-- Embedding of `setErrorFlags` (lin_decoder.cpp): OR the given bits into
`error_flags`. -/
def setErrorFlags (s : DecoderState) (flags : Nat) : DecoderState :=
  { s with error_flags := s.error_flags ||| flags }

/-- Embedding of `incrementTailFrameBuffer` (lin_decoder.cpp): increment and
wrap at `kMaxFrameBuffers`. -/
def incrementTailFrameBuffer (s : DecoderState) : DecoderState :=
  { s with tail_frame_buffer :=
      if kMaxFrameBuffers ≤ s.tail_frame_buffer + 1 then 0
      else s.tail_frame_buffer + 1 }

/-- Embedding of `incrementHeadFrameBuffer` (lin_decoder.cpp): increment and
wrap at `kMaxFrameBuffers`. -/
def incrementHeadFrameBuffer (s : DecoderState) : DecoderState :=
  { s with head_frame_buffer :=
      if kMaxFrameBuffers ≤ s.head_frame_buffer + 1 then 0
      else s.head_frame_buffer + 1 }

/-- Embedding of `StateDetectBreak::enter` (lin_decoder.cpp): set the state
variable and clear the low-bit counter (the `tx2` pin release is I/O). -/
def StateDetectBreak.enter (s : DecoderState) : DecoderState :=
  { s with state := states.DETECT_BREAK, low_bits_counter := 0 }

/-- Embedding of `StateReadData::enter` (lin_decoder.cpp): set the state
variable, clear the byte/bit counters, reset the frame slot at the head
index, and select channel 1 as the active read channel. The bounded
`waitForRxLow(255, true)` busy-wait and the timer arming are I/O whose
result the source ignores. -/
def StateReadData.enter (s : DecoderState) : DecoderState :=
  { s with state := states.READ_DATA
           bytes_read := 0
           bits_read_in_byte := 0
           rx_frame_buffers :=
             s.rx_frame_buffers.set s.head_frame_buffer LinFrame.reset
           rx_from_lin1 := true }

/-- Environment observations consumed by one `StateReadData::handle_isr`
invocation: the mid-bit sample of the active channel, the outcome of
`waitForResponseStartBit` (0 timeout, 1 channel 1, 2 channel 2; consulted
only after the second byte), and the outcome of `waitForRxLow` for the next
start bit (consulted after every other byte). -/
structure IsrInput where
  is_rx_high : Bool
  responder : Nat
  next_start_bit : Bool

/-- Embedding of the frame-commit fragment of `StateReadData::handle_isr`
(lin_decoder.cpp, the `!has_more_bytes` path after the minimum-count check):
advance the head index; if it caught up with the tail index, raise a buffer
overrun and advance the tail index, discarding the oldest frame. -/
def commitFrame (s : DecoderState) : DecoderState :=
  let s1 := incrementHeadFrameBuffer s
  if s1.tail_frame_buffer = s1.head_frame_buffer then
    incrementTailFrameBuffer (setErrorFlags s1 errors.BUFFER_OVERRUN)
  else s1

/-- Embedding of `StateReadData::handle_isr` (lin_decoder.cpp). The repeater
pin mirroring and the debug strobes are I/O; everything else is translated
branch for branch. Note that the source increments `bytes_read_` before the
stop-bit error check, so that check compares the incremented value with 0. -/
def StateReadData.handle_isr (s : DecoderState) (inp : IsrInput) : DecoderState :=
  if s.bits_read_in_byte = 0 then
    -- Handle byte's start bit.
    if inp.is_rx_high then
      StateDetectBreak.enter
        (setErrorFlags s
          (if s.bytes_read = 0 then errors.SYNC_BYTE else errors.START_BIT))
    else
      { s with bits_read_in_byte := (s.bits_read_in_byte + 1) % 256
               byte_buffer := 0
               byte_buffer_bit_mask := 1 }
  else if s.bits_read_in_byte ≤ 8 then
    -- Collect the current data bit into byte_buffer_, lsb first.
    { s with byte_buffer :=
               if inp.is_rx_high then s.byte_buffer ||| s.byte_buffer_bit_mask
               else s.byte_buffer
             byte_buffer_bit_mask := (s.byte_buffer_bit_mask <<< 1) % 256
             bits_read_in_byte := (s.bits_read_in_byte + 1) % 256 }
  else
    -- Here when in a stop bit.
    let s := { s with bytes_read := (s.bytes_read + 1) % 256
                      bits_read_in_byte := 0 }
    if ¬ inp.is_rx_high then
      StateDetectBreak.enter
        (setErrorFlags s
          (if s.bytes_read = 0 then errors.SYNC_BYTE else errors.STOP_BIT))
    else if s.bytes_read = 1 ∧ s.byte_buffer ≠ 0x55 then
      StateDetectBreak.enter (setErrorFlags s errors.SYNC_BYTE)
    else
      -- Append any non-sync byte to the frame slot at the head index.
      let appended :=
        (s.rx_frame_buffers.getD s.head_frame_buffer default).append_byte
          s.byte_buffer
      let s :=
        if s.bytes_read = 1 then s
        else
          { s with rx_frame_buffers :=
              s.rx_frame_buffers.set s.head_frame_buffer appended }
      let has_more_bytes :=
        if s.bytes_read = 2 then inp.responder ≠ 0 else inp.next_start_bit
      let s :=
        if s.bytes_read = 2 then { s with rx_from_lin1 := inp.responder ≠ 2 }
        else s
      if ¬ has_more_bytes then
        if s.bytes_read < LinFrame.kMinBytes then
          StateDetectBreak.enter (setErrorFlags s errors.FRAME_TOO_SHORT)
        else
          StateDetectBreak.enter (commitFrame s)
      else if LinFrame.kMaxBytes ≤
          (s.rx_frame_buffers.getD s.head_frame_buffer default).num_bytes then
        StateDetectBreak.enter (setErrorFlags s errors.FRAME_TOO_LONG)
      else
        -- setTimerToHalfTick; remain in Read-Data for the next byte.
        s

/-- Iterate `StateReadData::handle_isr` over a list of per-tick environment
observations. -/
def runReadData (s : DecoderState) (inputs : List IsrInput) : DecoderState :=
  inputs.foldl StateReadData.handle_isr s

/-- Embedding of `readNextFrame` (lin_decoder.cpp). The caller passes its
output buffer; the function returns the `boolean` result, the buffer after
the call (copied from the tail slot only when a frame is available), and the
updated decoder state. The `waitForIsrEnd`/`cli`/`sei` synchronization
around the body orders the two execution contexts and has no effect in this
single-context model. -/
def readNextFrame (s : DecoderState) (buffer : LinFrame) :
    Bool × LinFrame × DecoderState :=
  if s.tail_frame_buffer ≠ s.head_frame_buffer then
    (true, s.rx_frame_buffers.getD s.tail_frame_buffer default,
      incrementTailFrameBuffer s)
  else
    (false, buffer, s)

/-- Model of the decoder completing one whole frame `f`: during Read-Data the
bytes of `f` were appended one at a time into the slot at the head index
(leaving it equal to `f`), and at end of frame the commit fragment of
`StateReadData::handle_isr` ran. -/
def pushFrame (s : DecoderState) (f : LinFrame) : DecoderState :=
  commitFrame
    { s with rx_frame_buffers := s.rx_frame_buffers.set s.head_frame_buffer f }

/-- Repeatedly call `readNextFrame` (with a scratch buffer) until it reports
no frame or the fuel runs out, collecting the returned frames in order. -/
def drainFrames : Nat → DecoderState → List LinFrame
  | 0, _ => []
  | fuel + 1, s =>
    match readNextFrame s default with
    | (true, f, s1) => f :: drainFrames fuel s1
    | (false, _, _) => []

/-! ## Response-channel disambiguation (lin_decoder.cpp) -/

/-- Per-iteration observations of `waitForResponseStartBit`'s polling loop:
the level read on each channel during that iteration, and whether the
timeout test at the end of the iteration fires. -/
structure RespObs where
  r1 : Bool
  r2 : Bool
  timed_out : Bool

/-- Embedding of `waitForResponseStartBit` (lin_decoder.cpp) over a finite
trace of polling iterations. `s1`/`s2` are the previously read levels
(initialized from the reads before the loop). Each iteration polls channel 1
first: a high-to-low transition there returns 1 without looking at
channel 2; then channel 2 is polled; then the tick budget is checked,
returning 0 on timeout. `none` means the trace ended before the loop did. -/
def waitForResponseStartBit (s1 s2 : Bool) : List RespObs → Option Nat
  | [] => none
  | o :: rest =>
    if s1 ∧ ¬ o.r1 then some 1
    else if s2 ∧ ¬ o.r2 then some 2
    else if o.timed_out then some 0
    else waitForResponseStartBit o.r1 o.r2 rest

/-- Helper predicate: some polling iteration at or before the first timeout
observes a high-to-low transition on one of the two channels (relative to
the running previously-read levels). -/
def hasTransitionBeforeTimeout (s1 s2 : Bool) : List RespObs → Bool
  | [] => false
  | o :: rest =>
    (s1 && !o.r1) || (s2 && !o.r2) ||
      (!o.timed_out && hasTransitionBeforeTimeout o.r1 o.r2 rest)

/-! ## Claim C1: ring-buffer overrun behaviour -/

/-- Push a list of completed frames into the decoder state in order. -/
def pushAll (s : DecoderState) (fs : List LinFrame) : DecoderState :=
  fs.foldl pushFrame s

/-- Concrete run for claim C1: nine distinguishable one-byte frames pushed
into the initially empty ring buffer without any pop. -/
def c1State : DecoderState :=
  pushAll initialState
    [⟨[1]⟩, ⟨[2]⟩, ⟨[3]⟩, ⟨[4]⟩, ⟨[5]⟩, ⟨[6]⟩, ⟨[7]⟩, ⟨[8]⟩, ⟨[9]⟩]

/-- C1 counterexample: pushing `kMaxFrameBuffers + 1 = 9` completed frames
into the empty ring buffer does NOT leave the `kMaxFrameBuffers = 8` most
recent frames recoverable as the claim states: only 7 frames come back from
`readNextFrame` (frames 3..9), so the second-oldest frame `[2]` is also
unrecoverable, and the overrun bit was raised (the drained mask is the
single overrun bit). -/
theorem c1_counterexample :
    (drainFrames 9 c1State).length = 7 ∧
    ¬ (drainFrames 9 c1State).length = 8 ∧
    drainFrames 9 c1State =
      [⟨[3]⟩, ⟨[4]⟩, ⟨[5]⟩, ⟨[6]⟩, ⟨[7]⟩, ⟨[8]⟩, ⟨[9]⟩] ∧
    c1State.error_flags = errors.BUFFER_OVERRUN := by
  decide

/-- C1 (amended): since `head == tail` encodes "empty", the 8-slot ring
holds at most 7 unread frames. Pushing 9 completed frames without a pop
raises the buffer-overrun error on both the 8th and the 9th push (each time
silently discarding the then-oldest frame, so the tail index advances twice)
while the drained mask still shows just the single overrun bit; the two
oldest pushed frames are unrecoverable and subsequent `readNextFrame` calls
return the remaining 7 most recent frames in push order before returning
false. -/
theorem c1_ring_overrun_amended (f1 f2 f3 f4 f5 f6 f7 f8 f9 : LinFrame) :
    (pushAll initialState [f1, f2, f3, f4, f5, f6, f7]).error_flags = 0 ∧
    (pushAll initialState [f1, f2, f3, f4, f5, f6, f7, f8]).error_flags =
      errors.BUFFER_OVERRUN ∧
    (pushAll initialState [f1, f2, f3, f4, f5, f6, f7, f8]).tail_frame_buffer
      = 1 ∧
    (pushAll initialState
      [f1, f2, f3, f4, f5, f6, f7, f8, f9]).error_flags =
      errors.BUFFER_OVERRUN ∧
    (pushAll initialState
      [f1, f2, f3, f4, f5, f6, f7, f8, f9]).tail_frame_buffer = 2 ∧
    drainFrames 9 (pushAll initialState
      [f1, f2, f3, f4, f5, f6, f7, f8, f9]) =
      [f3, f4, f5, f6, f7, f8, f9] := by
  refine ⟨?_, ?_, ?_, ?_, ?_, ?_⟩ <;>
    simp [pushAll, pushFrame, commitFrame, incrementHeadFrameBuffer,
      incrementTailFrameBuffer, setErrorFlags, initialState, drainFrames,
      readNextFrame, kMaxFrameBuffers, errors.BUFFER_OVERRUN,
      LinFrame.reset]

/-! ## Claim C2: stop-bit error classification on the first byte -/

/-- Decoder state at the stop-bit tick of the first byte of a frame: in
Read-Data, all nine earlier bits of the sync byte consumed
(`bits_read_in_byte_ == 9`), no byte completed yet (`bytes_read_ == 0`). -/
def c2State : DecoderState :=
  { initialState with
    state := states.READ_DATA
    bits_read_in_byte := 9
    byte_buffer := 0x55 }

/-- C2 evaluation at the failing input: with the stop-bit position of the
FIRST byte sampled low, `StateReadData::handle_isr` raises `STOP_BIT`, not
`SYNC_BYTE` as the claim (and the source's own comment "If in sync byte,
report as sync error") requires: the code increments `bytes_read_` before
testing `bytes_read_ == 0`, so the sync-byte arm of that test is
unreachable. The transition back to Detect-Break does happen. -/
theorem c2_stop_bit_first_byte_code_eval :
    (StateReadData.handle_isr c2State ⟨false, 0, false⟩).error_flags =
      errors.STOP_BIT ∧
    ¬ (StateReadData.handle_isr c2State ⟨false, 0, false⟩).error_flags =
      errors.SYNC_BYTE ∧
    (StateReadData.handle_isr c2State ⟨false, 0, false⟩).state =
      states.DETECT_BREAK := by
  decide

/-! ## Claim C3: break, valid sync byte, then inter-byte timeout -/

/-- Tick-by-tick observations for one complete byte of value 0x55 after the
break: a low start bit, the eight data bits of 0x55 least-significant first,
then a high stop bit after which `waitForRxLow` times out (no further
start-bit transition within the inter-byte timeout). -/
def c3Inputs : List IsrInput :=
  [⟨false, 0, true⟩, ⟨true, 0, true⟩, ⟨false, 0, true⟩, ⟨true, 0, true⟩,
   ⟨false, 0, true⟩, ⟨true, 0, true⟩, ⟨false, 0, true⟩, ⟨true, 0, true⟩,
   ⟨false, 0, true⟩, ⟨true, 0, false⟩]

/-- Decoder state produced by a confirmed break followed by a valid sync
byte (0x55) and then silence past the inter-byte timeout. -/
def c3Result : DecoderState :=
  runReadData (StateReadData.enter initialState) c3Inputs

set_option maxRecDepth 8000

/-- C3 evaluation at the failing input: after break, sync byte 0x55 and
silence past the inter-byte timeout, the decoder raises NO error (in
particular not `FRAME_TOO_SHORT`) and commits an empty frame: the head
index advances from 0 to 1 and the committed slot holds zero bytes. The
too-short test compares `bytes_read_` (which counts the sync byte, so is at
least 1 at every end of frame) against `kMinBytes = 1`, so it can never
fire, contradicting the spec's stated behaviour. The decoder does return to
Detect-Break. -/
theorem c3_sync_only_frame_code_eval :
    c3Result.error_flags = 0 ∧
    c3Result.head_frame_buffer = 1 ∧
    (c3Result.rx_frame_buffers.getD 0 default).bytes = [] ∧
    c3Result.state = states.DETECT_BREAK := by
  decide

/-! ## Claim C8: identifier-parity stability -/

/-- C8: for every byte (hence for every 6-bit identifier carried in its low
six bits), `setIdChecksumBits` preserves the low six bits, is idempotent,
and its output passes the validator's identifier-parity test
(line `id_byte != setIdChecksumBits(id_byte)` of `isFrameValid`). -/
theorem c8_id_parity_stable :
    ∀ b : Fin 256,
      setIdChecksumBits b.val % 64 = b.val % 64 ∧
      setIdChecksumBits (setIdChecksumBits b.val) = setIdChecksumBits b.val ∧
      idParityOk (setIdChecksumBits b.val) = true := by
  decide

/-! ## Claim C9: readNextFrame on an empty ring buffer -/

/-- C9: when the ring buffer is empty (`tail == head`), `readNextFrame`
returns false and leaves the caller's buffer and the decoder state
untouched; when a frame is available it returns true and copies exactly the
tail slot into the caller's buffer, advancing the tail index. -/
theorem c9_read_next_frame_empty (s : DecoderState) (buffer : LinFrame) :
    (s.tail_frame_buffer = s.head_frame_buffer →
      readNextFrame s buffer = (false, buffer, s)) ∧
    (s.tail_frame_buffer ≠ s.head_frame_buffer →
      (readNextFrame s buffer).1 = true ∧
      (readNextFrame s buffer).2.1 =
        s.rx_frame_buffers.getD s.tail_frame_buffer default ∧
      (readNextFrame s buffer).2.2 = incrementTailFrameBuffer s) := by
  constructor
  · intro h
    simp [readNextFrame, h]
  · intro h
    simp [readNextFrame, h]

/-- Decoder state with one frame available, for the C9 witness. -/
def c9State : DecoderState := { initialState with head_frame_buffer := 1 }

/-- Witness for C9 at concrete states: the empty `initialState` yields a
false result with untouched buffer, and `c9State` (one available frame)
yields a true result copying slot 0. -/
theorem c9_read_next_frame_empty_witness :
    readNextFrame initialState default = (false, default, initialState) ∧
    ((readNextFrame c9State default).1 = true ∧
      (readNextFrame c9State default).2.1 =
        c9State.rx_frame_buffers.getD c9State.tail_frame_buffer default ∧
      (readNextFrame c9State default).2.2 = incrementTailFrameBuffer c9State) :=
  ⟨(c9_read_next_frame_empty initialState default).1 rfl,
   (c9_read_next_frame_empty c9State default).2 (by decide)⟩

/-! ## Claim C4: sync-byte comparison and byte appending -/

/-- C4: at the stop-bit tick of a byte whose stop bit samples high (with
`bytes_read_` a `uint8`, hence below 256): if it is the FIRST completed byte
of the frame, it is compared against the fixed sync value 0x55 and never
appended - on mismatch a sync-byte error is raised and the decoder returns
to Detect-Break with the frame slots untouched, on match the slots are
likewise untouched and (when a next start bit arrives in time and the frame
is not over-long) decoding continues in Read-Data with no error; every
SUBSEQUENT completed byte is appended to the frame slot at the head
index. -/
theorem c4_sync_byte_handling (s : DecoderState) (inp : IsrInput)
    (hst : s.state = states.READ_DATA)
    (hbits : s.bits_read_in_byte = 9) (hhigh : inp.is_rx_high = true)
    (hbr : s.bytes_read < 256) :
    (s.bytes_read = 0 → s.byte_buffer ≠ 0x55 →
      (StateReadData.handle_isr s inp).error_flags =
        s.error_flags ||| errors.SYNC_BYTE ∧
      (StateReadData.handle_isr s inp).state = states.DETECT_BREAK ∧
      (StateReadData.handle_isr s inp).rx_frame_buffers =
        s.rx_frame_buffers) ∧
    (s.bytes_read = 0 → s.byte_buffer = 0x55 →
      (StateReadData.handle_isr s inp).rx_frame_buffers =
        s.rx_frame_buffers ∧
      (inp.next_start_bit = true →
        (s.rx_frame_buffers.getD s.head_frame_buffer default).num_bytes <
          LinFrame.kMaxBytes →
        (StateReadData.handle_isr s inp).state = states.READ_DATA ∧
        (StateReadData.handle_isr s inp).error_flags = s.error_flags)) ∧
    (1 ≤ s.bytes_read →
      (StateReadData.handle_isr s inp).rx_frame_buffers =
        s.rx_frame_buffers.set s.head_frame_buffer
          ((s.rx_frame_buffers.getD s.head_frame_buffer default).append_byte
            s.byte_buffer)) := by
  refine ⟨?_, ?_, ?_⟩
  · intro hz hne
    simp [StateReadData.handle_isr, hbits, hhigh, hz, hne,
      StateDetectBreak.enter, setErrorFlags]
  · intro hz heq
    refine ⟨?_, ?_⟩
    · by_cases hnb : inp.next_start_bit = true <;>
        simp [StateReadData.handle_isr, hbits, hhigh, hz, heq, hnb,
          StateDetectBreak.enter, setErrorFlags, commitFrame,
          incrementHeadFrameBuffer, incrementTailFrameBuffer,
          LinFrame.kMinBytes, apply_ite DecoderState.rx_frame_buffers]
    · intro hnb hlen
      have hnl : ¬ (LinFrame.kMaxBytes ≤
          ((s.rx_frame_buffers[s.head_frame_buffer]?).getD
            default).num_bytes) := by
        simpa [List.getD] using Nat.not_le.mpr hlen
      simp [StateReadData.handle_isr, hbits, hhigh, hz, heq, hnb, hnl, hst,
        StateDetectBreak.enter, setErrorFlags, commitFrame,
        incrementHeadFrameBuffer, incrementTailFrameBuffer,
        LinFrame.kMinBytes]
  · intro hone
    have hmod : (s.bytes_read + 1) % 256 ≠ 1 := by omega
    simp [StateReadData.handle_isr, hbits, hhigh, hmod,
      StateDetectBreak.enter, setErrorFlags, commitFrame,
      incrementHeadFrameBuffer, incrementTailFrameBuffer,
      apply_ite DecoderState.rx_frame_buffers]

/-- Stop-bit-tick state for the C4 witness, first byte case. -/
def c4State : DecoderState :=
  { initialState with
    state := states.READ_DATA
    bits_read_in_byte := 9
    byte_buffer := 0x54 }

/-- Stop-bit-tick state for the C4 witness, subsequent-byte case. -/
def c4StateLater : DecoderState :=
  { initialState with
    state := states.READ_DATA
    bits_read_in_byte := 9
    bytes_read := 2
    byte_buffer := 0xAB }

/-- Witness for C4 at concrete inputs: a first byte of 0x54 raises the
sync-byte error without storing anything, and a third byte of 0xAB is
appended to the head frame slot. -/
theorem c4_sync_byte_handling_witness :
    ((StateReadData.handle_isr c4State ⟨true, 0, true⟩).error_flags =
        c4State.error_flags ||| errors.SYNC_BYTE ∧
      (StateReadData.handle_isr c4State ⟨true, 0, true⟩).state =
        states.DETECT_BREAK ∧
      (StateReadData.handle_isr c4State ⟨true, 0, true⟩).rx_frame_buffers =
        c4State.rx_frame_buffers) ∧
    (StateReadData.handle_isr c4StateLater ⟨true, 0, true⟩).rx_frame_buffers =
      c4StateLater.rx_frame_buffers.set c4StateLater.head_frame_buffer
        ((c4StateLater.rx_frame_buffers.getD c4StateLater.head_frame_buffer
            default).append_byte c4StateLater.byte_buffer) :=
  ⟨(c4_sync_byte_handling c4State ⟨true, 0, true⟩ rfl rfl rfl (by decide)).1
      rfl (by decide),
   (c4_sync_byte_handling c4StateLater ⟨true, 0, true⟩ rfl rfl rfl
      (by decide)).2.2 (by decide)⟩

/-! ## Claim C10: responder-disambiguation race -/

/-- Decoder state at the stop-bit tick of the identifier byte (the second
byte: `bytes_read_` is 1 on entry), for the C10 witness. -/
def c10State : DecoderState :=
  { initialState with
    state := states.READ_DATA
    bits_read_in_byte := 9
    bytes_read := 1
    byte_buffer := 0x80 }

/-- C10: the responder-disambiguation race is deterministic in favour of
channel 1. `waitForResponseStartBit` polls channel 1 first in every
iteration, so when both channels show a high-to-low transition in the same
polling iteration it returns 1; it returns 0 only when no transition occurs
on either channel before the tick budget expires; and in
`StateReadData::handle_isr`, a result of 1 after the identifier byte makes
the master line (channel 1) the active read channel. -/
theorem c10_responder_race :
    (∀ (s1 s2 : Bool) (o : RespObs) (rest : List RespObs),
      s1 = true → s2 = true → o.r1 = false → o.r2 = false →
      waitForResponseStartBit s1 s2 (o :: rest) = some 1) ∧
    (∀ (s1 s2 : Bool) (obs : List RespObs),
      waitForResponseStartBit s1 s2 obs = some 0 →
      hasTransitionBeforeTimeout s1 s2 obs = false) ∧
    (∀ (s : DecoderState) (inp : IsrInput),
      s.bits_read_in_byte = 9 → inp.is_rx_high = true → s.bytes_read = 1 →
      inp.responder = 1 →
      (StateReadData.handle_isr s inp).rx_from_lin1 = true) := by
  refine ⟨?_, ?_, ?_⟩
  · intro s1 s2 o rest h1 h2 hr1 hr2
    simp [waitForResponseStartBit, h1, h2, hr1, hr2]
  · intro s1 s2 obs
    induction obs generalizing s1 s2 with
    | nil => intro h; simp [waitForResponseStartBit] at h
    | cons o rest ih =>
      obtain ⟨r1, r2, tmo⟩ := o
      intro h
      cases s1 <;> cases s2 <;> cases r1 <;> cases r2 <;> cases tmo <;>
        simp_all [waitForResponseStartBit, hasTransitionBeforeTimeout]
  · intro s inp hbits hhigh hbr hresp
    simp [StateReadData.handle_isr, hbits, hhigh, hbr, hresp,
      StateDetectBreak.enter, setErrorFlags, commitFrame,
      incrementHeadFrameBuffer, incrementTailFrameBuffer]
    split <;> simp [StateDetectBreak.enter]

/-- Witness for C10 at concrete inputs: simultaneous transitions in the
first polling iteration give channel 1; a transition-free trace that times
out is the only way to get 0; and a responder result of 1 after the
identifier byte selects channel 1 as the active read channel. -/
theorem c10_responder_race_witness :
    waitForResponseStartBit true true [⟨false, false, false⟩] = some 1 ∧
    hasTransitionBeforeTimeout true true [⟨true, true, true⟩] = false ∧
    (StateReadData.handle_isr c10State ⟨true, 1, true⟩).rx_from_lin1 = true :=
  ⟨c10_responder_race.1 true true ⟨false, false, false⟩ [] rfl rfl rfl rfl,
   c10_responder_race.2.1 true true [⟨true, true, true⟩] (by decide),
   c10_responder_race.2.2 c10State ⟨true, 1, true⟩ rfl rfl rfl rfl⟩

/-! ## Claims C6 and C7: timing configuration -/

/-- C6 counterexample: the requested baud rate 1950 is inside the supported
range [1000, 20000], yet `Config::set` leaves
`clock_ticks_per_until_start_bit_` equal to 0: `clock_ticks_per_bit_` is
250000 / 1950 = 128, and the `uint8` store of 128 * 6 = 768 truncates to 0.
So not all derived tick counts are strictly positive. -/
theorem c6_counterexample :
    1000 ≤ 1950 ∧ 1950 ≤ 20000 ∧
    (Config.set 1950).clock_ticks_per_until_start_bit = 0 := by
  decide

/-- C6 (amended): for every requested baud rate in [1000, 20000], the counts
per bit, counts per half bit, clock ticks per bit and clock ticks per half
bit are strictly positive and each half-bit count is at most its full-bit
count; the clock ticks until start bit are positive EXCEPT for the requested
rates 1938..1953, exactly those whose clock-ticks-per-bit is 128, where the
`uint8` truncation of 128 * 6 yields 0. -/
theorem c6_config_counts_amended (baud : Nat)
    (h1 : 1000 ≤ baud) (h2 : baud ≤ 20000) :
    0 < (Config.set baud).counts_per_bit ∧
    0 < (Config.set baud).counts_per_half_bit ∧
    0 < (Config.set baud).clock_ticks_per_bit ∧
    0 < (Config.set baud).clock_ticks_per_half_bit ∧
    (Config.set baud).counts_per_half_bit ≤ (Config.set baud).counts_per_bit ∧
    (Config.set baud).clock_ticks_per_half_bit ≤
      (Config.set baud).clock_ticks_per_bit ∧
    (0 < (Config.set baud).clock_ticks_per_until_start_bit ↔
      ¬ (1938 ≤ baud ∧ baud ≤ 1953)) := by
  have hb0 : 0 < baud := by omega
  have hno : ¬ (baud < 1000 ∨ 20000 < baud) := by omega
  have ht_le : 250000 / baud ≤ 250 := by
    have h := (Nat.div_lt_iff_lt_mul hb0).mpr
      (show 250000 < 251 * baud by omega)
    omega
  have ht_ge : 12 ≤ 250000 / baud :=
    (Nat.le_div_iff_mul_le hb0).mpr (by omega)
  have ht128a : 250000 / baud = 128 → 1938 ≤ baud ∧ baud ≤ 1953 := by
    intro h
    have hle : 128 * baud ≤ 250000 := (Nat.le_div_iff_mul_le hb0).mp (by omega)
    have hlt : 250000 < 129 * baud := (Nat.div_lt_iff_lt_mul hb0).mp (by omega)
    omega
  have ht128b : 1938 ≤ baud ∧ baud ≤ 1953 → 250000 / baud = 128 := by
    intro h
    have hle : 128 ≤ 250000 / baud :=
      (Nat.le_div_iff_mul_le hb0).mpr (by omega)
    have hlt : 250000 / baud < 129 :=
      (Nat.div_lt_iff_lt_mul hb0).mpr (by omega)
    omega
  obtain ⟨t, htdef⟩ : ∃ x, 250000 / baud = x := ⟨_, rfl⟩
  by_cases hp : baud < 8000
  · have hc_ge : 31 ≤ 250000 / baud :=
      (Nat.le_div_iff_mul_le hb0).mpr (by omega)
    simp [Config.set, hno, hp, kTicksPerMilli, kMaxSpaceBits]
    simp only [htdef] at *
    omega
  · have hc_ge : 100 ≤ 2000000 / baud :=
      (Nat.le_div_iff_mul_le hb0).mpr (by omega)
    have hc_le : 2000000 / baud ≤ 250 := by
      have h := (Nat.div_lt_iff_lt_mul hb0).mpr
        (show 2000000 < 251 * baud by omega)
      omega
    obtain ⟨c, hcdef⟩ : ∃ x, 2000000 / baud = x := ⟨_, rfl⟩
    simp [Config.set, hno, hp, kTicksPerMilli, kMaxSpaceBits]
    simp only [htdef, hcdef] at *
    omega

/-- Witness for C6 (amended) at the concrete in-range baud rate 9600. -/
theorem c6_config_counts_amended_witness :
    0 < (Config.set 9600).counts_per_bit ∧
    0 < (Config.set 9600).counts_per_half_bit ∧
    0 < (Config.set 9600).clock_ticks_per_bit ∧
    0 < (Config.set 9600).clock_ticks_per_half_bit ∧
    (Config.set 9600).counts_per_half_bit ≤ (Config.set 9600).counts_per_bit ∧
    (Config.set 9600).clock_ticks_per_half_bit ≤
      (Config.set 9600).clock_ticks_per_bit ∧
    (0 < (Config.set 9600).clock_ticks_per_until_start_bit ↔
      ¬ (1938 ≤ 9600 ∧ 9600 ≤ 1953)) :=
  c6_config_counts_amended 9600 (by decide) (by decide)

/-- C7: an out-of-range baud request (below 1000 or above 20000) makes
`Config::set` substitute the default 9600 and derive every timing value from
it (the whole configuration equals the one computed for 9600, so `baud()`
returns 9600); an in-range request leaves `baud()` equal to the requested
value. The argument is a `uint16`, hence the bound. -/
theorem c7_baud_clamp (baud : Nat) (h : baud < 65536) :
    ((baud < 1000 ∨ 20000 < baud) →
      Config.set baud = Config.set kDefaultBaud) ∧
    (1000 ≤ baud → baud ≤ 20000 → (Config.set baud).baud = baud) ∧
    (Config.set kDefaultBaud).baud = kDefaultBaud := by
  refine ⟨?_, ?_, by decide⟩
  · intro hout
    simp [Config.set, hout, kDefaultBaud]
  · intro ha hb
    have hno : ¬ (baud < 1000 ∨ 20000 < baud) := by omega
    simp [Config.set, hno]

/-- Witness for C7: the out-of-range request 25000 yields the configuration
of the default 9600, and the in-range request 9600 keeps its baud. -/
theorem c7_baud_clamp_witness :
    Config.set 25000 = Config.set kDefaultBaud ∧
    (Config.set 9600).baud = 9600 :=
  ⟨(c7_baud_clamp 25000 (by decide)).1 (Or.inr (by decide)),
   (c7_baud_clamp 9600 (by decide)).2.1 (by decide) (by decide)⟩

/-! ## Claim C5: the validator's well-formedness condition -/

/-- Specification-side description of the checksummed sub-range: the frame
bytes excluding the last byte, starting from the byte after the identifier
in the classic variant and from the identifier itself in the enhanced
variant. -/
def specChecksumBase (enhanced : Bool) (bytes : List Nat) : List Nat :=
  if enhanced then bytes.dropLast else (bytes.drop 1).dropLast

/-- Specification-side well-formedness predicate, written from the spec's
words for comparison against the code's `isFrameValid`: the byte count is 1
or between 3 and 10; the first byte's two most-significant bits equal the
parity bits computed from its lower six bits by the identifier-parity
algorithm; and, when the count exceeds 1, the last byte equals the
complement of the 8-bit carry-folded sum over `specChecksumBase`. -/
def specWellFormed (enhanced : Bool) (bytes : List Nat) : Prop :=
  (bytes.length = 1 ∨ (3 ≤ bytes.length ∧ bytes.length ≤ 10)) ∧
  bytes.getD 0 0 / 64 = setIdChecksumBits (bytes.getD 0 0 % 64) / 64 ∧
  (1 < bytes.length →
    bytes.getD (bytes.length - 1) 0 =
      255 - foldCarry (specChecksumBase enhanced bytes).sum)

/-- Helper: the validator's self-comparison `id == setIdChecksumBits id`
agrees, byte for byte, with comparing the top two bits against the parity of
the low six bits. -/
theorem idParity_equiv :
    ∀ b : Fin 256,
      idParityOk b.val =
        decide (b.val / 64 = setIdChecksumBits (b.val % 64) / 64) := by
  decide

/-- Helper: propositional form of `idParity_equiv` for a byte-sized value. -/
theorem idParityOk_iff (b : Nat) (hb : b < 256) :
    idParityOk b = true ↔ b / 64 = setIdChecksumBits (b % 64) / 64 := by
  have h := idParity_equiv ⟨b, hb⟩
  simp only [Fin.val_mk] at h
  rw [h, decide_eq_true_iff]

/-- Helper: a frame of at most ten byte-sized values sums below 2^16, so the
`uint16` accumulator of `frameChecksum` never wraps. -/
theorem sum_lt_65536 (l : List Nat) (hb : ∀ b ∈ l, b < 256)
    (hlen : l.length ≤ 10) : l.sum < 65536 := by
  have h := List.sum_le_card_nsmul l 255 (fun x hx => by
    have := hb x hx; omega)
  have h2 : l.length * 255 ≤ 10 * 255 := Nat.mul_le_mul_right 255 hlen
  simp only [smul_eq_mul] at h
  omega

/-- Helper: the code's take/drop window in `frameChecksum` is exactly the
spec's checksummed sub-range. -/
theorem frameChecksum_range (enhanced : Bool) (bytes : List Nat) :
    (bytes.drop (if enhanced then 0 else 1)).take
        (bytes.length - ((if enhanced then 0 else 1) + 1)) =
      specChecksumBase enhanced bytes := by
  cases enhanced with
  | true =>
    simp only [specChecksumBase, if_true, eq_self_iff_true, List.drop_zero,
      Nat.zero_add]
    rw [List.dropLast_eq_take]
  | false =>
    have hf : (false = true) = False := by simp
    simp only [specChecksumBase, hf, if_false]
    rw [List.dropLast_eq_take, List.length_drop, Nat.sub_sub]

/-- Helper: on byte-sized frames of at most ten bytes, `frameChecksum`
computes the spec's complemented carry-folded sum of `specChecksumBase`. -/
theorem frameChecksum_eq_spec (enhanced : Bool) (bytes : List Nat)
    (hb : ∀ b ∈ bytes, b < 256) (hlen : bytes.length ≤ 10) :
    frameChecksum enhanced bytes =
      255 - foldCarry (specChecksumBase enhanced bytes).sum := by
  have hsub : ∀ x ∈ specChecksumBase enhanced bytes, x ∈ bytes := by
    intro x hx
    cases enhanced with
    | true =>
      simp only [specChecksumBase, if_true] at hx
      exact List.dropLast_subset bytes hx
    | false =>
      simp only [specChecksumBase, if_false] at hx
      exact List.drop_subset 1 bytes (List.dropLast_subset _ hx)
  have hlen2 : (specChecksumBase enhanced bytes).length ≤ 10 := by
    cases enhanced <;>
      simp [specChecksumBase, List.length_dropLast, List.length_drop] <;>
        omega
  have hsum := sum_lt_65536 (specChecksumBase enhanced bytes)
    (fun x hx => hb x (hsub x hx)) hlen2
  simp only [frameChecksum]
  rw [frameChecksum_range enhanced bytes, Nat.mod_eq_of_lt hsum]

/-- C5: over byte-valued frames, the validator `isFrameValid` accepts
exactly the frames satisfying the spec's well-formedness condition
`specWellFormed`: size 1 or 3..10, identifier parity in the two top bits of
the first byte, and (for multi-byte frames) a matching complemented
carry-folded checksum in the last byte. -/
theorem c5_validator_iff (enhanced : Bool) (bytes : List Nat)
    (hb : ∀ b ∈ bytes, b < 256) :
    isFrameValid enhanced bytes = true ↔ specWellFormed enhanced bytes := by
  unfold isFrameValid specWellFormed
  by_cases hsz : bytes.length ≠ 1 ∧ (bytes.length < 3 ∨ 10 < bytes.length)
  · rw [if_pos hsz]
    simp only [Bool.false_eq_true, false_iff]
    rintro ⟨h1, _, _⟩
    omega
  · have hlen10 : bytes.length ≤ 10 := by omega
    have hpos : 1 ≤ bytes.length := by omega
    have hid_mem : bytes.getD 0 0 ∈ bytes := by
      cases bytes with
      | nil => simp at hpos
      | cons a l => simp
    have hid_lt : bytes.getD 0 0 < 256 := hb _ hid_mem
    have hsz' : bytes.length = 1 ∨ (3 ≤ bytes.length ∧ bytes.length ≤ 10) := by
      omega
    rw [if_neg hsz]
    by_cases hid : idParityOk (bytes.getD 0 0) = true
    · rw [if_neg (not_not_intro hid)]
      have hpar := (idParityOk_iff _ hid_lt).mp hid
      by_cases hgt : 1 < bytes.length
      · rw [if_pos hgt, frameChecksum_eq_spec enhanced bytes hb hlen10]
        simp only [beq_iff_eq]
        constructor
        · intro h
          exact ⟨hsz', hpar, fun _ => h⟩
        · rintro ⟨_, _, h3⟩
          exact h3 hgt
      · rw [if_neg hgt]
        simp only [true_iff]
        exact ⟨hsz', hpar, fun hc => absurd hc hgt⟩
    · rw [if_pos hid]
      simp only [Bool.false_eq_true, false_iff]
      rintro ⟨_, hpar, _⟩
      exact hid ((idParityOk_iff _ hid_lt).mpr hpar)

/-- Witness for C5 at a concrete byte-valued frame: the single-byte frame
holding the protected identifier 0x80 (identifier 0 with its parity bits). -/
theorem c5_validator_iff_witness :
    isFrameValid true [0x80] = true ↔ specWellFormed true [0x80] :=
  c5_validator_iff true [0x80] (by decide)

end LinDecoder
